import Mathlib

/-!
# AstroGuard backend — historical-impact comparator and input normalizer

A shallow embedding of `src/backend/historical_impacts.py` and the unit
normalization helpers of `src/backend/app.py`, with theorems checking the
claims of the specification about them.

Python floats are modelled as exact rationals (`ℚ`): every constant appearing
in the catalog and in the comparator is an exact decimal, and the claims under
study are about the exact arithmetic the code expresses, not about rounding
of IEEE doubles.
-/

/-- One entry of the `HISTORICAL_IMPACTS` list (a Python dict in the source);
all fields of the dicts are carried over. -/
structure HistoricalImpactRecord where
  id : String
  name : String
  location : String
  age_years : ℕ
  age_display : String
  crater_diameter_km : ℚ
  energy_mt : ℚ
  energy_display : String
  asteroid_diameter_km : ℚ
  description : String
  effects : String
  emoji : String
deriving DecidableEq, Repr, Inhabited

/-- Catalog entry `chicxulub` of `HISTORICAL_IMPACTS`. -/
def chicxulub : HistoricalImpactRecord where
  id := "chicxulub"
  name := "Chicxulub Impact"
  location := "Yucatan Peninsula, Mexico"
  age_years := 66000000
  age_display := "66 million years ago"
  crater_diameter_km := 150
  energy_mt := 100000000000
  energy_display := "100 Teratons"
  asteroid_diameter_km := 10
  description := "Mass extinction event that killed the dinosaurs"
  effects := "Global winter, 75% species extinction, mega-tsunamis"
  emoji := "🦕"

/-- Catalog entry `vredefort` of `HISTORICAL_IMPACTS`. -/
def vredefort : HistoricalImpactRecord where
  id := "vredefort"
  name := "Vredefort Crater"
  location := "South Africa"
  age_years := 2023000000
  age_display := "2 billion years ago"
  crater_diameter_km := 300
  energy_mt := 500000000000
  energy_display := "500 Teratons"
  asteroid_diameter_km := 15
  description := "Largest verified impact crater on Earth"
  effects := "Massive global devastation"
  emoji := "💫"

/-- Catalog entry `sudbury` of `HISTORICAL_IMPACTS`. -/
def sudbury : HistoricalImpactRecord where
  id := "sudbury"
  name := "Sudbury Basin"
  location := "Ontario, Canada"
  age_years := 1849000000
  age_display := "1.85 billion years ago"
  crater_diameter_km := 130
  energy_mt := 60000000000
  energy_display := "60 Teratons"
  asteroid_diameter_km := 10
  description := "One of the largest impact structures on Earth"
  effects := "Created major nickel deposits"
  emoji := "⛏️"

/-- Catalog entry `popigai` of `HISTORICAL_IMPACTS`. -/
def popigai : HistoricalImpactRecord where
  id := "popigai"
  name := "Popigai Crater"
  location := "Siberia, Russia"
  age_years := 35700000
  age_display := "35.7 million years ago"
  crater_diameter_km := 100
  energy_mt := 30000000000
  energy_display := "30 Teratons"
  asteroid_diameter_km := 8
  description := "Fourth largest verified crater, contains impact diamonds"
  effects := "Massive regional destruction, diamond formation"
  emoji := "💎"

/-- Catalog entry `barringer` of `HISTORICAL_IMPACTS`. -/
def barringer : HistoricalImpactRecord where
  id := "barringer"
  name := "Barringer Crater"
  location := "Arizona, USA"
  age_years := 50000
  age_display := "50,000 years ago"
  crater_diameter_km := 1.2
  energy_mt := 10
  energy_display := "10 Megatons"
  asteroid_diameter_km := 0.05
  description := "Best preserved impact crater on Earth"
  effects := "175m deep crater, everything within 4km destroyed"
  emoji := "🏜️"

/-- Catalog entry `tunguska` of `HISTORICAL_IMPACTS`. -/
def tunguska : HistoricalImpactRecord where
  id := "tunguska"
  name := "Tunguska Event"
  location := "Siberia, Russia"
  age_years := 116
  age_display := "1908"
  crater_diameter_km := 0
  energy_mt := 15
  energy_display := "10-15 Megatons"
  asteroid_diameter_km := 0.06
  description := "Largest impact event in recorded history (airburst)"
  effects := "2,150 km² of forest flattened, no crater"
  emoji := "💥"

/-- Catalog entry `chelyabinsk` of `HISTORICAL_IMPACTS`. -/
def chelyabinsk : HistoricalImpactRecord where
  id := "chelyabinsk"
  name := "Chelyabinsk Meteor"
  location := "Chelyabinsk, Russia"
  age_years := 13
  age_display := "2013"
  crater_diameter_km := 0
  energy_mt := 0.5
  energy_display := "500 Kilotons"
  asteroid_diameter_km := 0.02
  description := "Largest undetected asteroid to enter atmosphere"
  effects := "1,500 injuries, mostly from broken glass"
  emoji := "🌠"

/-- Catalog entry `hiroshima` of `HISTORICAL_IMPACTS`. -/
def hiroshima : HistoricalImpactRecord where
  id := "hiroshima"
  name := "Hiroshima Bomb (Reference)"
  location := "Hiroshima, Japan"
  age_years := 81
  age_display := "1945"
  crater_diameter_km := 0
  energy_mt := 0.015
  energy_display := "15 Kilotons"
  asteroid_diameter_km := 0
  description := "Nuclear weapon reference for energy comparison"
  effects := "Destroyed 13 km² area"
  emoji := "☢️"

/-- The module-level constant `HISTORICAL_IMPACTS` (lines 6-119), in source
order: chicxulub, vredefort, sudbury, popigai, barringer, tunguska,
chelyabinsk, hiroshima. -/
def HISTORICAL_IMPACTS : List HistoricalImpactRecord :=
  [chicxulub, vredefort, sudbury, popigai, barringer, tunguska, chelyabinsk,
   hiroshima]

/-- `get_all_historical_impacts()`: returns the catalog unchanged. -/
def get_all_historical_impacts : List HistoricalImpactRecord :=
  HISTORICAL_IMPACTS

/-- `get_impacts_larger_than(energy_mt)`: the catalog entries with energy
strictly above the given energy. -/
def get_impacts_larger_than (energy_mt : ℚ) : List HistoricalImpactRecord :=
  HISTORICAL_IMPACTS.filter (fun i => energy_mt < i.energy_mt)

/-- `get_impacts_smaller_than(energy_mt)`: the catalog entries with energy
strictly below the given energy. -/
def get_impacts_smaller_than (energy_mt : ℚ) : List HistoricalImpactRecord :=
  HISTORICAL_IMPACTS.filter (fun i => i.energy_mt < energy_mt)

/-! ## Sorting (line 140: `sorted(HISTORICAL_IMPACTS, key=lambda x: x["energy_mt"])`)

The Python `sorted` builtin is a stable sort by the key. We model it with an
insertion sort producing a sorted permutation; it breaks ties in favor of
later elements rather than earlier ones, but the eight catalog energies are
pairwise distinct, so on this input it agrees with the stable mergesort of
CPython (the lemma `sortedImpacts_eq` pins down the resulting order). -/

/-- Insert a record into a list, after every element whose energy does not
exceed it. -/
def insertByEnergy (x : HistoricalImpactRecord) :
    List HistoricalImpactRecord → List HistoricalImpactRecord
  | [] => [x]
  | y :: ys =>
    if y.energy_mt ≤ x.energy_mt then y :: insertByEnergy x ys
    else x :: y :: ys

/-- Stable sort of the catalog by ascending `energy_mt`
(`sorted(..., key=lambda x: x["energy_mt"])`). -/
def sortByEnergy (l : List HistoricalImpactRecord) :
    List HistoricalImpactRecord :=
  l.foldr insertByEnergy []

/-! ## The comparator loop (lines 142-155) -/

/-- The distance computed at line 148 for a candidate of energy `cand`:
`ratio = energy_mt / cand; abs(1 - ratio) if ratio <= 1 else abs(ratio - 1)`. -/
def ratioDiffE (energy_mt cand : ℚ) : ℚ :=
  let ratio := energy_mt / cand
  if ratio ≤ 1 then |1 - ratio| else |ratio - 1|

/-- One iteration of the `for impact in sorted_impacts` loop (lines 145-152).
The accumulator is `none` for the initial state
`closest = None; min_ratio_diff = float("inf")` (any finite distance beats
infinity), and `some (closest, min_ratio_diff)` afterwards. -/
def stepClosest (energy_mt : ℚ) (acc : Option (HistoricalImpactRecord × ℚ))
    (impact : HistoricalImpactRecord) : Option (HistoricalImpactRecord × ℚ) :=
  if 0 < impact.energy_mt then
    let ratio_diff := ratioDiffE energy_mt impact.energy_mt
    match acc with
    | none => some (impact, ratio_diff)
    | some (c, m) => if ratio_diff < m then some (impact, ratio_diff)
                     else some (c, m)
  else acc

/-- The whole selection loop: fold `stepClosest` over the energy-sorted
catalog starting from the empty state. -/
def selectClosest (energy_mt : ℚ) : Option (HistoricalImpactRecord × ℚ) :=
  (sortByEnergy HISTORICAL_IMPACTS).foldl (stepClosest energy_mt) none

/-! ## Number formatting helpers for the f-strings (lines 160-185) -/

/-- Python `int(q)`: truncation toward zero. -/
def ratTrunc (q : ℚ) : ℤ :=
  if 0 ≤ q then ⌊q⌋ else ⌈q⌉

/-- Round to the nearest integer, ties to even (the rounding used by Python
fixed-precision float formatting, applied here to the exact rational). -/
def roundHalfEven (q : ℚ) : ℤ :=
  let f := ⌊q⌋
  let frac := q - f
  if frac < 1 / 2 then f
  else if 1 / 2 < frac then f + 1
  else if f % 2 = 0 then f else f + 1

/-- Python `f"{q:.0%}"`: the value times 100, rounded to an integer, with a
percent sign. -/
def formatPercent0 (q : ℚ) : String :=
  toString (roundHalfEven (q * 100)) ++ "%"

/-- Python `f"{q:.1f}"` for a nonnegative value: one digit after the point. -/
def format1f (q : ℚ) : String :=
  let n := roundHalfEven (q * 10)
  toString (n / 10) ++ "." ++ toString (n % 10)

/-- Insert a thousands separator every three digits, on the reversed digit
list of a number. -/
def commaRev : List Char → List Char
  | a :: b :: c :: d :: rest => a :: b :: c :: ',' :: commaRev (d :: rest)
  | l => l

/-- Python `f"{n:,}"` for a nonnegative integer: decimal digits grouped in
threes by commas. -/
def commaFmt (n : ℕ) : String :=
  String.mk ((commaRev (toString n).toList.reverse).reverse)

/-- Python `f"{z:,}"` on an integer (sign, then grouped digits). -/
def commaFmtInt (z : ℤ) : String :=
  if z < 0 then "-" ++ commaFmt z.natAbs else commaFmt z.natAbs

/-- The comparison-message generation (lines 160-174), as a function of the
ratio and of `closest["name"]`. -/
def comparisonTextOf (ratio : ℚ) (name : String) : String :=
  if ratio < 0.01 then
    "much smaller than " ++ name
  else if ratio < 0.1 then
    "about 1/" ++ toString (ratTrunc (1 / ratio)) ++ " the energy of " ++ name
  else if ratio < 0.5 then
    "about " ++ formatPercent0 ratio ++ " the energy of " ++ name
  else if ratio < 2 then
    "comparable to " ++ name
  else if ratio < 10 then
    "about " ++ format1f ratio ++ "x " ++ name
  else if ratio < 100 then
    "about " ++ toString (ratTrunc ratio) ++ "x " ++ name
  else
    "vastly larger than " ++ name

/-- The dictionary returned by `find_closest_comparison` (lines 180-186). -/
structure ComparisonResult where
  closest_impact : HistoricalImpactRecord
  energy_ratio : ℚ
  comparison_text : String
  hiroshima_equivalent : ℚ
  hiroshima_text : String
deriving DecidableEq, Repr

/-- `find_closest_comparison(energy_mt, crater_km=None)` (lines 125-186).
The unused optional `crater_km` argument is carried over. `None` results are
`Option.none`. -/
def find_closest_comparison (energy_mt : ℚ) (crater_km : Option ℚ) :
    Option ComparisonResult :=
  if energy_mt ≤ 0 then none
  else
    let closest : HistoricalImpactRecord :=
      match selectClosest energy_mt with
      | some (c, _) => c
      | none => HISTORICAL_IMPACTS.headI
    let ratio : ℚ :=
      if 0 < closest.energy_mt then energy_mt / closest.energy_mt else 0
    let hiroshima_equivalent : ℚ := energy_mt / 0.015
    some
      { closest_impact := closest
        energy_ratio := ratio
        comparison_text := comparisonTextOf ratio closest.name
        hiroshima_equivalent := hiroshima_equivalent
        hiroshima_text :=
          "Equivalent to " ++ commaFmtInt (ratTrunc hiroshima_equivalent) ++
            " Hiroshima bombs" }

/-! ## `app.py` unit normalization helpers (lines 36-53)

Python values arriving at `_to_float` are dynamically typed; we model the
cases the function distinguishes. Python `bool` is a subclass of `int`, so
booleans fall under the `int` constructor. -/

/-- A dynamically typed value as seen by `_to_float`. -/
inductive PyValue where
  | int : ℤ → PyValue
  | float : ℚ → PyValue
  | str : String → PyValue
  | pynone : PyValue
  | other : PyValue
deriving DecidableEq, Repr

/-- Split a leading run of decimal digits from a character list. -/
def takeDigits : List Char → List Char × List Char
  | [] => ([], [])
  | c :: cs =>
    if c.isDigit then
      let (d, r) := takeDigits cs
      (c :: d, r)
    else ([], c :: cs)

/-- The natural number denoted by a list of decimal digit characters. -/
def digitsVal (l : List Char) : ℕ :=
  l.foldl (fun a c => 10 * a + (c.toNat - '0'.toNat)) 0

/-- Parse an optional sign, returning the sign as a rational and the rest. -/
def parseSign : List Char → ℚ × List Char
  | '+' :: t => (1, t)
  | '-' :: t => (-1, t)
  | t => (1, t)

/-- A Python float value as produced by `float(str)`: a finite value (exact
rational in this model), a signed infinity, or a NaN. -/
inductive PyFloat where
  | finite : ℚ → PyFloat
  | posInf : PyFloat
  | negInf : PyFloat
  | nan : PyFloat
deriving DecidableEq, Repr

/-- CPython underscore preprocessing of a numeric string (PEP 515): every
underscore must be immediately preceded and followed by a decimal digit, and
is removed; any other underscore makes the whole string invalid. `prev` is
the character seen just before the current position, if any. -/
def stripUAux (prev : Option Char) : List Char → Option (List Char)
  | [] => some []
  | c :: rest =>
    if c = '_' then
      match prev, rest with
      | some p, d :: _ =>
        if p.isDigit && d.isDigit then stripUAux (some c) rest else none
      | _, _ => none
    else
      match stripUAux (some c) rest with
      | some l => some (c :: l)
      | none => none

/-- Case-insensitive comparison of a character list with a keyword. -/
def lowerEq (l : List Char) (s : String) : Bool :=
  l.map Char.toLower == s.toList

/-- The Python builtin `float(str)` on an already-stripped string: after the
PEP 515 underscore pass, an optional sign followed by either the spellings
`inf`/`infinity`/`nan` (case-insensitive, giving the non-finite doubles) or a
finite decimal literal — digits with an optional fractional part (at least
one digit overall) and an optional `e`/`E` exponent. `none` is a
`ValueError`. ASCII digits and whitespace only: the CPython transform of
Unicode decimal digits and exotic spaces is outside this byte-level model. -/
def pyFloatOfChars (l : List Char) : Option PyFloat :=
  match stripUAux none l with
  | none => none
  | some l0 =>
    let (neg, l1) :=
      match l0 with
      | '+' :: t => (false, t)
      | '-' :: t => (true, t)
      | t => (false, t)
    if lowerEq l1 "inf" || lowerEq l1 "infinity" then
      some (if neg then .negInf else .posInf)
    else if lowerEq l1 "nan" then
      some .nan
    else
      let sgn : ℚ := if neg then -1 else 1
      let (ip, l2) := takeDigits l1
      let (fp, l3) :=
        match l2 with
        | '.' :: t => takeDigits t
        | t => ([], t)
      if ip.isEmpty && fp.isEmpty then none
      else
        let mant : ℚ := (digitsVal ip : ℚ) + (digitsVal fp : ℚ) / 10 ^ fp.length
        match l3 with
        | [] => some (.finite (sgn * mant))
        | e :: t =>
          if e = 'e' ∨ e = 'E' then
            let (esgn, t1) := parseSign t
            let (ed, t2) := takeDigits t1
            if ed.isEmpty || !t2.isEmpty then none
            else some (.finite (sgn * mant *
              (10 : ℚ) ^ ((if esgn = 1 then (1 : ℤ) else -1) * (digitsVal ed : ℤ))))
          else none

/-- `float(s.strip())`: strip surrounding whitespace, then parse. Returns
`none` where Python raises `ValueError`. -/
def pyFloatOfString (s : String) : Option PyFloat :=
  pyFloatOfChars s.trim.toList

/-- `_to_float(value, default=0.0)` (app.py lines 39-47), faithfully: an
`int` or `float` becomes its float value, a string is stripped and parsed by
`float()` — possibly to an infinity or NaN — and anything else (or a failed
parse) yields the default. Never raises. -/
def to_float_py (value : PyValue) (default : ℚ) : PyFloat :=
  match value with
  | .int n => .finite (n : ℚ)
  | .float q => .finite q
  | .str s =>
    match pyFloatOfString s with
    | some f => f
    | none => .finite default
  | .pynone => .finite default
  | .other => .finite default

/-- The rational-valued projection of `to_float_py`, agreeing with it
whenever the program produces a finite float. The unit-conversion helpers
below consume it; their claims concern the finite fragment, where a
non-finite input float would propagate through the multiplications
unchanged. -/
def to_float (value : PyValue) (default : ℚ) : ℚ :=
  match to_float_py value default with
  | .finite q => q
  | _ => default

/-- `AU_IN_METERS = 149597870700.0` (app.py line 37). -/
def AU_IN_METERS : ℚ := 149597870700

/-- The IEEE-754 double `math.pi` as an exact rational
(`884279719003555 / 2^48`). -/
def piFloat : ℚ := 884279719003555 / 281474976710656

/-- `_au_to_meters(value)` (app.py lines 49-50). -/
def au_to_meters (value : PyValue) : ℚ :=
  to_float value 0 * AU_IN_METERS

/-- `_deg_to_rad(value)` (app.py lines 52-53): `math.radians` multiplies by
`pi / 180` at double precision; over exact rationals that is multiplication by
`piFloat / 180`. -/
def deg_to_rad (value : PyValue) : ℚ :=
  to_float value 0 * (piFloat / 180)

/-! ## Structural lemmas about the selection loop -/

lemma mem_insertByEnergy {x a : HistoricalImpactRecord}
    {l : List HistoricalImpactRecord} :
    a ∈ insertByEnergy x l ↔ a = x ∨ a ∈ l := by
  induction l with
  | nil => simp [insertByEnergy]
  | cons y ys ih =>
    simp only [insertByEnergy]
    split
    · simp only [List.mem_cons, ih]
      tauto
    · simp only [List.mem_cons]

lemma mem_sortByEnergy {a : HistoricalImpactRecord}
    {l : List HistoricalImpactRecord} :
    a ∈ sortByEnergy l ↔ a ∈ l := by
  induction l with
  | nil => simp [sortByEnergy]
  | cons y ys ih =>
    have hstep : sortByEnergy (y :: ys) = insertByEnergy y (sortByEnergy ys) :=
      rfl
    rw [hstep, mem_insertByEnergy, ih]
    simp

/-- Invariant preserved by one loop iteration: the stored minimum is the
distance of the stored record, which has positive energy. -/
lemma stepClosest_inv (e : ℚ) (acc : Option (HistoricalImpactRecord × ℚ))
    (x : HistoricalImpactRecord)
    (hacc : ∀ c m, acc = some (c, m) →
      m = ratioDiffE e c.energy_mt ∧ 0 < c.energy_mt) :
    ∀ c m, stepClosest e acc x = some (c, m) →
      m = ratioDiffE e c.energy_mt ∧ 0 < c.energy_mt := by
  intro c m h
  by_cases hx : 0 < x.energy_mt
  · rcases acc with _ | ⟨c0, m0⟩
    · simp only [stepClosest, if_pos hx] at h
      injection h with h2
      injection h2 with hc hm
      subst hc
      subst hm
      exact ⟨rfl, hx⟩
    · simp only [stepClosest, if_pos hx] at h
      split_ifs at h with hlt
      · injection h with h2
        injection h2 with hc hm
        subst hc
        subst hm
        exact ⟨rfl, hx⟩
      · injection h with h2
        injection h2 with hc hm
        subst hc
        subst hm
        exact hacc _ _ rfl
  · simp only [stepClosest, if_neg hx] at h
    exact hacc c m h

/-- On a positive-energy record the loop body always stores something. -/
lemma stepClosest_ne_none (e : ℚ) (acc : Option (HistoricalImpactRecord × ℚ))
    (x : HistoricalImpactRecord) (hx : 0 < x.energy_mt) :
    stepClosest e acc x ≠ none := by
  intro hval
  rcases acc with _ | ⟨c0, m0⟩
  · simp only [stepClosest, if_pos hx] at hval
    exact Option.noConfusion hval
  · simp only [stepClosest, if_pos hx] at hval
    split_ifs at hval

/-- The loop body never drops a stored record. -/
lemma stepClosest_some_ne_none (e : ℚ) (c0 : HistoricalImpactRecord) (m0 : ℚ)
    (x : HistoricalImpactRecord) :
    stepClosest e (some (c0, m0)) x ≠ none := by
  intro hval
  by_cases hx : 0 < x.energy_mt
  · simp only [stepClosest, if_pos hx] at hval
    split_ifs at hval
  · simp only [stepClosest, if_neg hx] at hval
    exact Option.noConfusion hval

/-- The loop body never increases the stored minimum. -/
lemma stepClosest_le (e : ℚ) (c0 : HistoricalImpactRecord) (m0 : ℚ)
    (x : HistoricalImpactRecord) :
    ∀ c1 m1, stepClosest e (some (c0, m0)) x = some (c1, m1) → m1 ≤ m0 := by
  intro c1 m1 h1
  by_cases hx : 0 < x.energy_mt
  · simp only [stepClosest, if_pos hx] at h1
    split_ifs at h1 with hlt
    · injection h1 with h2
      injection h2 with _hc h3
      exact h3 ▸ le_of_lt hlt
    · injection h1 with h2
      injection h2 with _hc h3
      exact le_of_eq h3.symm
  · simp only [stepClosest, if_neg hx] at h1
    injection h1 with h2
    injection h2 with _hc h3
    exact le_of_eq h3.symm

/-- After the loop body sees a positive-energy record, the stored minimum is
at most that record's distance. -/
lemma stepClosest_le_seen (e : ℚ) (acc : Option (HistoricalImpactRecord × ℚ))
    (x : HistoricalImpactRecord) (hx : 0 < x.energy_mt) :
    ∀ c1 m1, stepClosest e acc x = some (c1, m1) →
      m1 ≤ ratioDiffE e x.energy_mt := by
  intro c1 m1 h1
  rcases acc with _ | ⟨c0, m0⟩
  · simp only [stepClosest, if_pos hx] at h1
    injection h1 with h2
    injection h2 with _hc h3
    exact le_of_eq h3.symm
  · simp only [stepClosest, if_pos hx] at h1
    split_ifs at h1 with hlt
    · injection h1 with h2
      injection h2 with _hc h3
      exact le_of_eq h3.symm
    · injection h1 with h2
      injection h2 with _hc h3
      exact h3 ▸ le_of_not_lt hlt

/-- If the whole loop ends with `closest = None`, it started there and saw no
positive-energy record. -/
lemma foldl_stepClosest_eq_none (e : ℚ) :
    ∀ (l : List HistoricalImpactRecord)
      (acc : Option (HistoricalImpactRecord × ℚ)),
      l.foldl (stepClosest e) acc = none →
      acc = none ∧ ∀ x ∈ l, ¬ 0 < x.energy_mt := by
  intro l
  induction l with
  | nil => intro acc h; exact ⟨h, by simp⟩
  | cons x xs ih =>
    intro acc h
    rw [List.foldl_cons] at h
    obtain ⟨hstep, hxs⟩ := ih (stepClosest e acc x) h
    by_cases hx : 0 < x.energy_mt
    · exact absurd hstep (stepClosest_ne_none e acc x hx)
    · simp only [stepClosest, if_neg hx] at hstep
      refine ⟨hstep, ?_⟩
      intro y hy
      rcases List.mem_cons.mp hy with rfl | hy'
      · exact hx
      · exact hxs y hy'

/-- Main loop invariant: a `some (c, m)` result of folding the loop body
stores the distance of `c`, `c` has positive energy and either was already
stored or comes from the list, `m` is a lower bound on the distance of every
positive-energy list element, and the stored minimum never increases. -/
lemma foldl_stepClosest_spec (e : ℚ) :
    ∀ (l : List HistoricalImpactRecord)
      (acc : Option (HistoricalImpactRecord × ℚ)),
      (∀ c m, acc = some (c, m) →
        m = ratioDiffE e c.energy_mt ∧ 0 < c.energy_mt) →
      ∀ c m, l.foldl (stepClosest e) acc = some (c, m) →
        (m = ratioDiffE e c.energy_mt ∧ 0 < c.energy_mt) ∧
        (acc = some (c, m) ∨ c ∈ l) ∧
        (∀ x ∈ l, 0 < x.energy_mt → m ≤ ratioDiffE e x.energy_mt) ∧
        (∀ c0 m0, acc = some (c0, m0) → m ≤ m0) := by
  intro l
  induction l with
  | nil =>
    intro acc hacc c m h
    simp only [List.foldl_nil] at h
    refine ⟨hacc c m h, Or.inl h, by simp, ?_⟩
    intro c0 m0 h0
    rw [h] at h0
    injection h0 with h2
    injection h2 with _hc h3
    exact le_of_eq h3
  | cons x xs ih =>
    intro acc hacc c m h
    rw [List.foldl_cons] at h
    have hacc' := stepClosest_inv e acc x hacc
    obtain ⟨hinv, hfrom, hmin, hle⟩ := ih (stepClosest e acc x) hacc' c m h
    refine ⟨hinv, ?_, ?_, ?_⟩
    · rcases hfrom with hsome | hmem
      · by_cases hx : 0 < x.energy_mt
        · rcases acc with _ | ⟨c0, m0⟩
          · simp only [stepClosest, if_pos hx] at hsome
            injection hsome with h2
            injection h2 with h3 _hm
            exact Or.inr (List.mem_cons.mpr (Or.inl h3.symm))
          · simp only [stepClosest, if_pos hx] at hsome
            split_ifs at hsome with hlt
            · injection hsome with h2
              injection h2 with h3 _hm
              exact Or.inr (List.mem_cons.mpr (Or.inl h3.symm))
            · exact Or.inl hsome
        · simp only [stepClosest, if_neg hx] at hsome
          exact Or.inl hsome
      · exact Or.inr (List.mem_cons.mpr (Or.inr hmem))
    · intro y hy hypos
      rcases List.mem_cons.mp hy with rfl | hy'
      · rcases hval : stepClosest e acc y with _ | ⟨c1, m1⟩
        · exact absurd hval (stepClosest_ne_none e acc y hypos)
        · exact le_trans (hle c1 m1 hval)
            (stepClosest_le_seen e acc y hypos c1 m1 hval)
      · exact hmin y hy' hypos
    · intro c0 m0 h0
      subst h0
      rcases hval : stepClosest e (some (c0, m0)) x with _ | ⟨c1, m1⟩
      · exact absurd hval (stepClosest_some_ne_none e c0 m0 x)
      · exact le_trans (hle c1 m1 hval) (stepClosest_le e c0 m0 x c1 m1 hval)

/-- Every catalog entry has positive energy (0.015 Mt is the smallest). -/
lemma catalog_energies_pos :
    ∀ x ∈ HISTORICAL_IMPACTS, 0 < x.energy_mt := by
  with_unfolding_all decide

/-- The selection loop always stores a record: one that has positive energy,
belongs to the catalog, and minimizes the ratio distance over all
positive-energy catalog entries. This holds for every `energy_mt`, the loop
not being guarded. -/
lemma selectClosest_spec (e : ℚ) :
    ∃ c m, selectClosest e = some (c, m) ∧
      m = ratioDiffE e c.energy_mt ∧ 0 < c.energy_mt ∧
      c ∈ HISTORICAL_IMPACTS ∧
      ∀ x ∈ HISTORICAL_IMPACTS, 0 < x.energy_mt →
        m ≤ ratioDiffE e x.energy_mt := by
  rcases hsel : selectClosest e with _ | ⟨c, m⟩
  · exfalso
    obtain ⟨_, hall⟩ := foldl_stepClosest_eq_none e
      (sortByEnergy HISTORICAL_IMPACTS) none hsel
    have hmem0 : hiroshima ∈ HISTORICAL_IMPACTS := by
      simp [HISTORICAL_IMPACTS]
    exact hall hiroshima (mem_sortByEnergy.mpr hmem0)
      (by with_unfolding_all decide)
  · obtain ⟨⟨hm, hcpos⟩, hfrom, hmin, _⟩ :=
      foldl_stepClosest_spec e (sortByEnergy HISTORICAL_IMPACTS) none
        (by intro c' m' h'; exact Option.noConfusion h') c m hsel
    refine ⟨c, m, rfl, hm, hcpos, ?_, ?_⟩
    · rcases hfrom with hnone | hmem
      · exact Option.noConfusion hnone
      · exact mem_sortByEnergy.mp hmem
    · intro x hx hxpos
      exact hmin x (mem_sortByEnergy.mpr hx) hxpos

/-- Unfolding of `find_closest_comparison` on a positive energy, in terms of
the record stored by the selection loop. -/
lemma find_closest_comparison_eq (e : ℚ) (he : 0 < e)
    (c : HistoricalImpactRecord) (m : ℚ) (hsel : selectClosest e = some (c, m))
    (hc : 0 < c.energy_mt) (k : Option ℚ) :
    find_closest_comparison e k = some
      { closest_impact := c
        energy_ratio := e / c.energy_mt
        comparison_text := comparisonTextOf (e / c.energy_mt) c.name
        hiroshima_equivalent := e / 0.015
        hiroshima_text :=
          "Equivalent to " ++ commaFmtInt (ratTrunc (e / 0.015)) ++
            " Hiroshima bombs" } := by
  unfold find_closest_comparison
  rw [if_neg (not_le.mpr he), hsel]
  simp only [if_pos hc]

/-- On a candidate at or above the simulated energy (`ratio ≤ 1`) the
distance is `1 - ratio`. -/
lemma ratioDiffE_of_le {e c : ℚ} (h : e / c ≤ 1) :
    ratioDiffE e c = 1 - e / c := by
  rw [ratioDiffE]
  simp only [if_pos h]
  exact abs_of_nonneg (by linarith)

/-- On a candidate strictly below the simulated energy (`ratio > 1`) the
distance is `ratio - 1`. -/
lemma ratioDiffE_of_gt {e c : ℚ} (h : 1 < e / c) :
    ratioDiffE e c = e / c - 1 := by
  rw [ratioDiffE]
  simp only [if_neg (not_le.mpr h)]
  exact abs_of_nonneg (by linarith)

/-- The sorted catalog, computed: ascending energies
0.015, 0.5, 10, 15, 3e10, 6e10, 1e11, 5e11. -/
lemma sortedImpacts_eq : sortByEnergy HISTORICAL_IMPACTS =
    [hiroshima, chelyabinsk, barringer, tunguska, popigai, sudbury, chicxulub,
     vredefort] := by
  norm_num [sortByEnergy, insertByEnergy, HISTORICAL_IMPACTS, chicxulub,
    vredefort, sudbury, popigai, barringer, tunguska, chelyabinsk, hiroshima]

/-- At 15 Mt the loop selects Tunguska at distance 0. -/
lemma selectClosest_at_15 : selectClosest 15 = some (tunguska, 0) := by
  rw [selectClosest, sortedImpacts_eq]
  norm_num [stepClosest, ratioDiffE_of_le, ratioDiffE_of_gt, hiroshima,
    chelyabinsk, barringer, tunguska, popigai, sudbury, chicxulub, vredefort]

/-- At 100 teratons (the Chicxulub energy) the loop selects Chicxulub at
distance 0. -/
lemma selectClosest_at_chicxulub :
    selectClosest 100000000000 = some (chicxulub, 0) := by
  rw [selectClosest, sortedImpacts_eq]
  norm_num [stepClosest, ratioDiffE_of_le, ratioDiffE_of_gt, hiroshima,
    chelyabinsk, barringer, tunguska, popigai, sudbury, chicxulub, vredefort]

/-- C1: for every energy_mt > 0, find_closest_comparison returns as
closest_impact a catalog entry that minimizes the distance
|1 - (energy_mt / candidate_energy)| over all catalog entries with positive
energy, the distance being |1 - ratio| when ratio ≤ 1 and |ratio - 1|
otherwise (the function `ratioDiffE`). -/
theorem C1_closest_minimizes_ratio_distance (e : ℚ) (he : 0 < e) :
    ∃ r, find_closest_comparison e none = some r ∧
      r.closest_impact ∈ HISTORICAL_IMPACTS ∧
      0 < r.closest_impact.energy_mt ∧
      ∀ x ∈ HISTORICAL_IMPACTS, 0 < x.energy_mt →
        ratioDiffE e r.closest_impact.energy_mt ≤ ratioDiffE e x.energy_mt := by
  obtain ⟨c, m, hsel, hm, hcpos, hmem, hmin⟩ := selectClosest_spec e
  refine ⟨_, find_closest_comparison_eq e he c m hsel hcpos none, hmem, hcpos,
    ?_⟩
  intro x hx hxpos
  exact hm ▸ hmin x hx hxpos

/-- Witness for C1 at energy 15. -/
theorem C1_witness :
    0 < (15 : ℚ) ∧
    ∃ r, find_closest_comparison 15 none = some r ∧
      r.closest_impact ∈ HISTORICAL_IMPACTS ∧
      0 < r.closest_impact.energy_mt ∧
      ∀ x ∈ HISTORICAL_IMPACTS, 0 < x.energy_mt →
        ratioDiffE 15 r.closest_impact.energy_mt ≤ ratioDiffE 15 x.energy_mt :=
  ⟨by norm_num, C1_closest_minimizes_ratio_distance 15 (by norm_num)⟩

/-- C2: find_closest_comparison returns no result (None) if and only if
energy_mt ≤ 0: for every energy_mt ≤ 0 it returns None, and for every
energy_mt > 0 it returns a comparison result — with either value of the
crater argument. -/
theorem C2_none_iff_nonpositive :
    (∀ (e : ℚ) (k : Option ℚ), e ≤ 0 → find_closest_comparison e k = none) ∧
    (∀ (e : ℚ) (k : Option ℚ), 0 < e →
      ∃ r, find_closest_comparison e k = some r) := by
  constructor
  · intro e k he
    rw [find_closest_comparison, if_pos he]
  · intro e k he
    obtain ⟨c, m, hsel, _, hcpos, _, _⟩ := selectClosest_spec e
    exact ⟨_, find_closest_comparison_eq e he c m hsel hcpos k⟩

/-- Witness for C2 at energies -1, 0 and 2. -/
theorem C2_witness :
    ((-1 : ℚ) ≤ 0 ∧ find_closest_comparison (-1) none = none) ∧
    ((0 : ℚ) ≤ 0 ∧ find_closest_comparison 0 none = none) ∧
    (0 < (2 : ℚ) ∧ ∃ r, find_closest_comparison 2 none = some r) :=
  ⟨⟨by norm_num, C2_none_iff_nonpositive.1 (-1) none (by norm_num)⟩,
   ⟨le_refl 0, C2_none_iff_nonpositive.1 0 none (le_refl 0)⟩,
   ⟨by norm_num, C2_none_iff_nonpositive.2 2 none (by norm_num)⟩⟩

/-- C3: find_closest_comparison applied to energy_mt = 15 returns the
Tunguska catalog record as closest_impact, with energy_ratio = 1.0 and
comparison_text "comparable to Tunguska Event". -/
theorem C3_tunguska_at_15 :
    (find_closest_comparison 15 none).map
      (fun r => (r.closest_impact, r.energy_ratio, r.comparison_text)) =
      some (tunguska, 1, "comparable to Tunguska Event") := by
  rw [find_closest_comparison_eq 15 (by norm_num) tunguska 0
    selectClosest_at_15 (by norm_num [tunguska]) none]
  simp only [Option.map_some']
  have hratio : (15 : ℚ) / tunguska.energy_mt = 1 := by norm_num [tunguska]
  rw [hratio]
  have htext : comparisonTextOf 1 tunguska.name =
      "comparable to Tunguska Event" := by
    rw [comparisonTextOf, if_neg (by norm_num), if_neg (by norm_num),
      if_neg (by norm_num), if_pos (by norm_num)]
    rfl
  rw [htext]

/-- C4: for every energy_mt > 0 the hiroshima_equivalent of the result is
energy_mt / 0.015; at energy_mt = 100_000_000_000 the closest record is
Chicxulub and the hiroshima_equivalent is 2e13/3 = 6666666666666.6…, i.e.
approximately 6.67e12 (within 3.4e9 of it). -/
theorem C4_hiroshima_equivalent :
    (∀ e : ℚ, 0 < e → ∃ r, find_closest_comparison e none = some r ∧
      r.hiroshima_equivalent = e / 0.015) ∧
    (find_closest_comparison 100000000000 none).map
      (fun r => (r.closest_impact, r.hiroshima_equivalent)) =
      some (chicxulub, 20000000000000 / 3) ∧
    |(20000000000000 : ℚ) / 3 - 6.67 * 10 ^ 12| < 3.4 * 10 ^ 9 := by
  refine ⟨?_, ?_, by rw [abs_sub_comm, abs_of_nonneg (by norm_num)]; norm_num⟩
  · intro e he
    obtain ⟨c, m, hsel, _, hcpos, _, _⟩ := selectClosest_spec e
    exact ⟨_, find_closest_comparison_eq e he c m hsel hcpos none, rfl⟩
  · rw [find_closest_comparison_eq 100000000000 (by norm_num) chicxulub 0
      selectClosest_at_chicxulub (by norm_num [chicxulub]) none]
    simp only [Option.map_some']
    norm_num

/-- Witness for C4 at energy 3. -/
theorem C4_witness :
    0 < (3 : ℚ) ∧ ∃ r, find_closest_comparison 3 none = some r ∧
      r.hiroshima_equivalent = 3 / 0.015 :=
  ⟨by norm_num, C4_hiroshima_equivalent.1 3 (by norm_num)⟩

/-- C5: for every energy_mt > 0 the comparison_text is selected by the bucket
of ratio = energy_mt / closest_energy, with the seven templates of lines
160-174, instantiated at the name of the closest record. -/
theorem C5_comparison_text_buckets (e : ℚ) (he : 0 < e) :
    ∃ r, find_closest_comparison e none = some r ∧
      r.energy_ratio = e / r.closest_impact.energy_mt ∧
      r.comparison_text =
        (if e / r.closest_impact.energy_mt < 0.01 then
          "much smaller than " ++ r.closest_impact.name
         else if e / r.closest_impact.energy_mt < 0.1 then
          "about 1/" ++ toString (ratTrunc (1 / (e / r.closest_impact.energy_mt)))
            ++ " the energy of " ++ r.closest_impact.name
         else if e / r.closest_impact.energy_mt < 0.5 then
          "about " ++ formatPercent0 (e / r.closest_impact.energy_mt)
            ++ " the energy of " ++ r.closest_impact.name
         else if e / r.closest_impact.energy_mt < 2 then
          "comparable to " ++ r.closest_impact.name
         else if e / r.closest_impact.energy_mt < 10 then
          "about " ++ format1f (e / r.closest_impact.energy_mt) ++ "x "
            ++ r.closest_impact.name
         else if e / r.closest_impact.energy_mt < 100 then
          "about " ++ toString (ratTrunc (e / r.closest_impact.energy_mt))
            ++ "x " ++ r.closest_impact.name
         else "vastly larger than " ++ r.closest_impact.name) := by
  obtain ⟨c, m, hsel, _, hcpos, _, _⟩ := selectClosest_spec e
  exact ⟨_, find_closest_comparison_eq e he c m hsel hcpos none, rfl, rfl⟩

/-- Witness for C5 at energy 15. -/
theorem C5_witness :
    0 < (15 : ℚ) ∧
    ∃ r, find_closest_comparison 15 none = some r ∧
      r.energy_ratio = 15 / r.closest_impact.energy_mt ∧
      r.comparison_text =
        (if 15 / r.closest_impact.energy_mt < 0.01 then
          "much smaller than " ++ r.closest_impact.name
         else if 15 / r.closest_impact.energy_mt < 0.1 then
          "about 1/" ++ toString (ratTrunc (1 / (15 / r.closest_impact.energy_mt)))
            ++ " the energy of " ++ r.closest_impact.name
         else if 15 / r.closest_impact.energy_mt < 0.5 then
          "about " ++ formatPercent0 (15 / r.closest_impact.energy_mt)
            ++ " the energy of " ++ r.closest_impact.name
         else if 15 / r.closest_impact.energy_mt < 2 then
          "comparable to " ++ r.closest_impact.name
         else if 15 / r.closest_impact.energy_mt < 10 then
          "about " ++ format1f (15 / r.closest_impact.energy_mt) ++ "x "
            ++ r.closest_impact.name
         else if 15 / r.closest_impact.energy_mt < 100 then
          "about " ++ toString (ratTrunc (15 / r.closest_impact.energy_mt))
            ++ "x " ++ r.closest_impact.name
         else "vastly larger than " ++ r.closest_impact.name) :=
  ⟨by norm_num, C5_comparison_text_buckets 15 (by norm_num)⟩

/-- C6 counterexample: at s = 1, r = 10 the candidate with energy s/r = 1/10
has distance 9 while the candidate with energy s*r = 10 has distance 9/10, so
the claimed strict inequality (smaller candidate closer) is false — the
metric favors the larger candidate. -/
theorem C6_counterexample :
    ratioDiffE 1 ((1 : ℚ) / 10) = 9 ∧ ratioDiffE 1 ((1 : ℚ) * 10) = 9 / 10 ∧
    ¬ ratioDiffE 1 ((1 : ℚ) / 10) < ratioDiffE 1 ((1 : ℚ) * 10) := by
  rw [ratioDiffE_of_gt (by norm_num), ratioDiffE_of_le (by norm_num)]
  norm_num

/-- C6 (amended): the distance metric is asymmetric in favor of larger
candidates: for every s > 0 and r > 1 the candidate with energy s*r (ratio
1/r below one) has strictly smaller distance than the candidate with energy
s/r (ratio r above one), so whenever the catalog contains both,
find_closest_comparison never selects the smaller-energy one of that pair. -/
theorem C6_amended_smaller_candidates_penalized (s r : ℚ) (hs : 0 < s)
    (hr : 1 < r) :
    ratioDiffE s (s * r) < ratioDiffE s (s / r) ∧
    ∀ res, find_closest_comparison s none = some res →
      ∀ e1 ∈ HISTORICAL_IMPACTS, e1.energy_mt = s / r →
      ∀ e2 ∈ HISTORICAL_IMPACTS, e2.energy_mt = s * r →
        res.closest_impact ≠ e1 := by
  have hr0 : 0 < r := lt_trans one_pos hr
  have hs0 : s ≠ 0 := ne_of_gt hs
  have hr0' : r ≠ 0 := ne_of_gt hr0
  have hA : s / (s * r) = 1 / r := by
    field_simp
  have hB : s / (s / r) = r := by
    rw [div_div_eq_mul_div, mul_comm, mul_div_assoc, div_self hs0, mul_one]
  have hdA : ratioDiffE s (s * r) = 1 - 1 / r := by
    rw [ratioDiffE_of_le (by rw [hA]; rw [div_le_one hr0]; exact le_of_lt hr),
      hA]
  have hdB : ratioDiffE s (s / r) = r - 1 := by
    rw [ratioDiffE_of_gt (by rw [hB]; exact hr), hB]
  have hkey : (r - 1) - (1 - 1 / r) = (r - 1) ^ 2 / r := by
    field_simp
    ring
  have hpos : 0 < (r - 1) ^ 2 / r :=
    div_pos (pow_pos (by linarith) 2) hr0
  have hlt : ratioDiffE s (s * r) < ratioDiffE s (s / r) := by
    rw [hdA, hdB]
    linarith
  refine ⟨hlt, ?_⟩
  intro res hres e1 he1 he1E e2 he2 he2E heq
  obtain ⟨c, m, hsel, hm, hcpos, _, hmin⟩ := selectClosest_spec s
  have hstruct := find_closest_comparison_eq s hs c m hsel hcpos none
  rw [hres] at hstruct
  have hresc : res.closest_impact = c := by
    injection hstruct with h1
    rw [h1]
  have he2pos : 0 < e2.energy_mt := by
    rw [he2E]; exact mul_pos hs hr0
  have hmle : m ≤ ratioDiffE s (s * r) := he2E ▸ hmin e2 he2 he2pos
  have hce : c = e1 := by
    rw [← hresc, heq]
  have hmval : m = ratioDiffE s (s / r) := by
    rw [hm, hce, he1E]
  rw [hmval] at hmle
  exact absurd (lt_of_lt_of_le' hlt hmle) (lt_irrefl _)

/-- Witness for the amended C6 at s = 1, r = 10. -/
theorem C6_amended_witness :
    0 < (1 : ℚ) ∧ 1 < (10 : ℚ) ∧
    (ratioDiffE 1 ((1 : ℚ) * 10) < ratioDiffE 1 ((1 : ℚ) / 10) ∧
     ∀ res, find_closest_comparison 1 none = some res →
       ∀ e1 ∈ HISTORICAL_IMPACTS, e1.energy_mt = (1 : ℚ) / 10 →
       ∀ e2 ∈ HISTORICAL_IMPACTS, e2.energy_mt = (1 : ℚ) * 10 →
         res.closest_impact ≠ e1) :=
  ⟨one_pos, by norm_num,
   C6_amended_smaller_candidates_penalized 1 10 one_pos (by norm_num)⟩

/-- C7: _to_float is total and never raises — an int or float input yields
its value as a float, a string parsing under `float()` (after stripping
whitespace; including underscore-separated literals and the inf/infinity/nan
spellings) yields the parsed float, and any other input (non-numeric string,
None, wrong type) yields the caller-specified default; on finite results the
rational-valued projection `to_float` agrees. -/
theorem C7_to_float_total :
    (∀ (n : ℤ) (d : ℚ), to_float_py (.int n) d = .finite (n : ℚ)) ∧
    (∀ (q d : ℚ), to_float_py (.float q) d = .finite q) ∧
    (∀ (s : String) (f : PyFloat) (d : ℚ), pyFloatOfString s = some f →
      to_float_py (.str s) d = f) ∧
    (∀ (s : String) (d : ℚ), pyFloatOfString s = none →
      to_float_py (.str s) d = .finite d) ∧
    (∀ d : ℚ, to_float_py .pynone d = .finite d) ∧
    (∀ d : ℚ, to_float_py .other d = .finite d) ∧
    (∀ (v : PyValue) (d q : ℚ), to_float_py v d = .finite q →
      to_float v d = q) := by
  refine ⟨fun n d => rfl, fun q d => rfl, ?_, ?_, fun d => rfl, fun d => rfl,
    ?_⟩
  · intro s f d h
    rw [to_float_py, h]
  · intro s d h
    rw [to_float_py, h]
  · intro v d q h
    rw [to_float, h]

set_option maxRecDepth 4000 in
/-- Witness for C7: " 2.5 " parses to 5/2; "1_000" (underscore separator)
parses to 1000; "-Infinity" parses to the negative infinity; "NaN" parses to
NaN; "abc" and the ill-placed underscore in "1__0" fail to parse and fall
back to the default 7. -/
theorem C7_witness :
    (pyFloatOfString " 2.5 " = some (.finite (5 / 2)) ∧
      to_float_py (.str " 2.5 ") 0 = .finite (5 / 2) ∧
      to_float (.str " 2.5 ") 0 = 5 / 2) ∧
    (pyFloatOfString "1_000" = some (.finite 1000) ∧
      to_float_py (.str "1_000") 0 = .finite 1000 ∧
      to_float (.str "1_000") 0 = 1000) ∧
    (pyFloatOfString "-Infinity" = some .negInf ∧
      to_float_py (.str "-Infinity") 7 = .negInf) ∧
    (pyFloatOfString "NaN" = some .nan ∧
      to_float_py (.str "NaN") 7 = .nan) ∧
    (pyFloatOfString "abc" = none ∧ to_float_py (.str "abc") 7 = .finite 7) ∧
    (pyFloatOfString "1__0" = none ∧
      to_float_py (.str "1__0") 7 = .finite 7) :=
  ⟨⟨by with_unfolding_all decide,
    C7_to_float_total.2.2.1 " 2.5 " (.finite (5 / 2)) 0
      (by with_unfolding_all decide),
    C7_to_float_total.2.2.2.2.2.2 (.str " 2.5 ") 0 (5 / 2)
      (C7_to_float_total.2.2.1 " 2.5 " (.finite (5 / 2)) 0
        (by with_unfolding_all decide))⟩,
   ⟨by with_unfolding_all decide,
    C7_to_float_total.2.2.1 "1_000" (.finite 1000) 0
      (by with_unfolding_all decide),
    C7_to_float_total.2.2.2.2.2.2 (.str "1_000") 0 1000
      (C7_to_float_total.2.2.1 "1_000" (.finite 1000) 0
        (by with_unfolding_all decide))⟩,
   ⟨by with_unfolding_all decide,
    C7_to_float_total.2.2.1 "-Infinity" .negInf 7
      (by with_unfolding_all decide)⟩,
   ⟨by with_unfolding_all decide,
    C7_to_float_total.2.2.1 "NaN" .nan 7 (by with_unfolding_all decide)⟩,
   ⟨by with_unfolding_all decide,
    C7_to_float_total.2.2.2.1 "abc" 7 (by with_unfolding_all decide)⟩,
   ⟨by with_unfolding_all decide,
    C7_to_float_total.2.2.2.1 "1__0" 7 (by with_unfolding_all decide)⟩⟩

/-- C8: au_to_meters multiplies the normalized value by 149597870700.0
meters per astronomical unit, and deg_to_rad multiplies it by pi / 180 (at
the double value of pi). -/
theorem C8_unit_conversions (v : PyValue) :
    au_to_meters v = to_float v 0 * 149597870700 ∧
    deg_to_rad v = to_float v 0 * (piFloat / 180) :=
  ⟨rfl, rfl⟩

/-- C9: the result of find_closest_comparison does not depend on the
crater_km argument — the optional crater diameter is ignored entirely. -/
theorem C9_crater_km_ignored (e : ℚ) (k1 k2 : Option ℚ) :
    find_closest_comparison e k1 = find_closest_comparison e k2 :=
  rfl

/-- C10: the catalog has exactly 8 entries, all with positive energy, so for
every energy_mt > 0 the selection loop stores a (positive-energy) record —
the fallback to HISTORICAL_IMPACTS[0] is unreachable — and the ratio guard is
taken, the returned energy_ratio being the true quotient, never the guard
value 0. -/
theorem C10_fallback_unreachable :
    HISTORICAL_IMPACTS.length = 8 ∧
    (∀ x ∈ HISTORICAL_IMPACTS, 0 < x.energy_mt) ∧
    (∀ e : ℚ, 0 < e →
      (∃ c m, selectClosest e = some (c, m) ∧ 0 < c.energy_mt) ∧
      ∃ r, find_closest_comparison e none = some r ∧
        r.energy_ratio = e / r.closest_impact.energy_mt ∧
        0 < r.closest_impact.energy_mt) := by
  refine ⟨rfl, catalog_energies_pos, ?_⟩
  intro e he
  obtain ⟨c, m, hsel, _, hcpos, _, _⟩ := selectClosest_spec e
  exact ⟨⟨c, m, hsel, hcpos⟩,
    ⟨_, find_closest_comparison_eq e he c m hsel hcpos none, rfl, hcpos⟩⟩

/-- Witness for C10 at energy 1. -/
theorem C10_witness :
    0 < (1 : ℚ) ∧
    (∃ c m, selectClosest 1 = some (c, m) ∧ 0 < c.energy_mt) ∧
    ∃ r, find_closest_comparison 1 none = some r ∧
      r.energy_ratio = 1 / r.closest_impact.energy_mt ∧
      0 < r.closest_impact.energy_mt :=
  ⟨one_pos, C10_fallback_unreachable.2.2 1 one_pos⟩
